import Mathlib

/-!
Verification of the `arp-gmail` shared library (`src/src/lib.rs`), a
foreign-function bridge that decodes a JSON mail-send request, validates it,
submits it over SMTP and returns an encoded response buffer.

The embedding translates the source functions `sendmail`, `send_via_gmail`,
`to_c_response` and `free`.  External collaborators that the source calls
(the serde JSON decoder, the lettre mailbox parser, the relay constructor and
the SMTP transport itself) are passed in as explicit function parameters, so
every theorem quantifies over their behaviour; the repository code that
consumes their results is translated literally.  A Rust `panic!` / `unwrap`
failure is modelled as an explicit `panicked` outcome, and a returned null
pointer as `nullPtr`, so aborting and soft-failing are distinguishable.
-/

namespace ArpGmail

/-- The `Mail` struct (src/src/lib.rs, lines 47-59): the wire schema of a
mail-send request.  `from`, `to`, `subject`, `message` are required strings;
the rest are optional and unused downstream. -/
structure Mail where
  «from» : String
  «to» : String
  cc : Option String
  bcc : Option String
  reply_to : Option String
  sender_name : Option String
  sender_email : Option String
  subject : String
  message : String
  attachments : Option (List String)
  deriving DecidableEq

/-- The `Response` struct (lines 68-72): the envelope serialized back to the
caller. -/
structure Response where
  status : String
  message : String
  deriving DecidableEq

/-- Model of a `hyper` header value as `sendmail` observes it:
`toStrResult` is the result of `HeaderValue::to_str()` (`none` when the raw
bytes are not valid visible ASCII), `debugRepr` its `Debug` rendering used by
the `Invalid content type` message. -/
structure HeaderValue where
  toStrResult : Option String
  debugRepr : String
  deriving DecidableEq

/-- The part of the `hyper::HeaderMap` that `sendmail` reads: the
(case-insensitively looked up) `content-type` entry. -/
structure HeaderMap where
  contentType : Option HeaderValue
  deriving DecidableEq

/-- The body C string as seen after `CStr::from_ptr(body).to_str()`:
`some s` when the bytes are valid UTF-8 with contents `s`, `none` when they
are not valid UTF-8. -/
abbrev Body := Option String

/-- Result of a Rust computation that may `panic!` (via `unwrap`). -/
inductive PResult (α : Type) where
  | ok : α → PResult α
  | panicked : PResult α
  deriving DecidableEq

/-- What a call to the exported `sendmail` does: return a null pointer,
return a buffer holding the serialized `Response`, or abort the process. -/
inductive CallResult where
  | nullPtr : CallResult
  | buffer : Response → CallResult
  | panicked : CallResult
  deriving DecidableEq

/-- The transport-ready message built by `Message::builder()` in
`send_via_gmail` (lines 127-134): parsed from/to mailboxes, the subject and
the single plain-text part holding the body.  The content type of the part is
the constant `text/plain` and is therefore not a field. -/
structure ComposedMessage where
  «from» : String
  «to» : String
  subject : String
  body : String
  deriving DecidableEq

/-- The mail composition step of `send_via_gmail` (lines 127-134):
`mail.from.parse().unwrap()` then `mail.to.parse().unwrap()`.  `parseAddr`
stands for lettre's mailbox parser; an unparseable address makes the
`unwrap` panic. -/
def composeEmail (parseAddr : String → Option String) (mail : Mail) :
    PResult ComposedMessage :=
  match parseAddr mail.«from» with
  | none => .panicked
  | some f =>
    match parseAddr mail.«to» with
    | none => .panicked
    | some t => .ok ⟨f, t, mail.subject, mail.message⟩

/-- Translation of `send_via_gmail` (lines 123-149).  `relay` stands for
`SmtpTransport::relay` (its `unwrap` panics when it fails), `server` for
`SMTP_CLIENT.server`, and `transport` for `mailer.send` on the transport
built with the stored credentials, returning either the relay
acknowledgement or the SMTP error, both already `Debug`-rendered.  The second
component counts how many submission attempts were made. -/
def send_via_gmail (parseAddr : String → Option String)
    (relay : String → Option Unit) (server : String)
    (transport : ComposedMessage → Except String String) (mail : Mail) :
    PResult (Except String String) × Nat :=
  match composeEmail parseAddr mail with
  | .panicked => (.panicked, 0)
  | .ok email =>
    match relay server with
    | none => (.panicked, 0)
    | some _ => (.ok (transport email), 1)

/-- The content-type gate of `sendmail` (lines 173-188): `some msg` when the
check fails and the early `error` response with message `msg` is returned,
`none` when the header is exactly `application/json`. -/
def contentTypeError (h : HeaderMap) : Option String :=
  match h.contentType with
  | some v =>
    if (v.toStrResult.getD "") ≠ "application/json" then
      some ("Invalid content type: " ++ v.debugRepr)
    else none
  | none => some "No content type"

/-- The byte-to-text step (lines 191-195):
`CStr::to_str(...).unwrap_or("Invalid UTF-8 sequence")`. -/
def bodyText (b : Body) : String := b.getD "Invalid UTF-8 sequence"

/-- The field-validation loop of `sendmail` (lines 207-217): the pairs in
source order. -/
def validationChecks (mail : Mail) : List (String × String) :=
  [(mail.«from», "No from address"), (mail.«to», "No to address"),
   (mail.subject, "No subject"), (mail.message, "No message")]

/-- First failing validation check, as the loop finds it. -/
def firstValidationError (mail : Mail) : Option String :=
  ((validationChecks mail).find? (fun p => p.1.isEmpty)).map (fun p => p.2)

/-- Tail of `sendmail` from the validation loop on (lines 207-231): validate the
parsed mail, then dispatch through `send_via_gmail` and build the response
envelope. -/
def afterDecode (parseAddr : String → Option String)
    (relay : String → Option Unit) (server : String)
    (transport : ComposedMessage → Except String String) (mail : Mail) :
    CallResult × Nat :=
  match firstValidationError mail with
  | some msg => (.buffer ⟨"error", msg⟩, 0)
  | none =>
    match send_via_gmail parseAddr relay server transport mail with
    | (.panicked, n) => (.panicked, n)
    | (.ok (.ok success), n) =>
      (.buffer ⟨"success", "Email sent successfully: " ++ success⟩, n)
    | (.ok (.error e), n) =>
      (.buffer ⟨"error", "Failed to send email: " ++ e⟩, n)

/-- Tail of `sendmail` from the byte-to-text step on (lines 191-231): convert the
body, run the structural decode (`serde_json::from_str`, passed in as
`parseMail` with the `Debug`-rendered error text), then validate and
dispatch. -/
def afterContentType (parseMail : String → Except String Mail)
    (parseAddr : String → Option String)
    (relay : String → Option Unit) (server : String)
    (transport : ComposedMessage → Except String String) (b : Body) :
    CallResult × Nat :=
  match parseMail (bodyText b) with
  | .error e => (.buffer ⟨"error", "Invalid JSON: " ++ e⟩, 0)
  | .ok mail => afterDecode parseAddr relay server transport mail

/-- The exported `sendmail` (lines 151-232).  `headers = none` / `body = none`
model null pointers, for which the function returns null immediately. -/
def sendmail (parseMail : String → Except String Mail)
    (parseAddr : String → Option String)
    (relay : String → Option Unit) (server : String)
    (transport : ComposedMessage → Except String String)
    (headers : Option HeaderMap) (body : Option Body) : CallResult × Nat :=
  match headers, body with
  | none, _ => (.nullPtr, 0)
  | some _, none => (.nullPtr, 0)
  | some h, some b =>
    match contentTypeError h with
    | some msg => (.buffer ⟨"error", msg⟩, 0)
    | none => afterContentType parseMail parseAddr relay server transport b

/-- One hexadecimal digit, lowercase, as serde_json renders `\u` escapes. -/
def hexDigit (n : Nat) : Char :=
  if n < 10 then Char.ofNat (48 + n) else Char.ofNat (87 + n)

/-- serde_json's escaping of one character inside a JSON string. -/
def escapeChar (c : Char) : List Char :=
  if c = '"' then ['\\', '"']
  else if c = '\\' then ['\\', '\\']
  else if c = '\x08' then ['\\', 'b']
  else if c = '\x09' then ['\\', 't']
  else if c = '\x0a' then ['\\', 'n']
  else if c = '\x0c' then ['\\', 'f']
  else if c = '\x0d' then ['\\', 'r']
  else if c.toNat < 0x20 then
    ['\\', 'u', '0', '0', hexDigit (c.toNat / 16), hexDigit (c.toNat % 16)]
  else [c]

/-- serde_json's escaping of a whole string. -/
def jsonEscape (s : String) : String :=
  ⟨s.data.foldr (fun c acc => escapeChar c ++ acc) []⟩

/-- Translation of `to_c_response` (lines 114-121): serde_json pretty printing of the
`Response` struct, i.e. the two fields in declaration order with two-space
indentation, handed to the caller as a C string.  Serialization and
`CString::new` cannot fail here (escaping leaves no interior NUL), so the
result is the buffer's contents. -/
def to_c_response (r : Response) : String :=
  "\x7b\n  \"status\": \"" ++ jsonEscape r.status ++
    "\",\n  \"message\": \"" ++ jsonEscape r.message ++ "\"\n\x7d"

/-- The opening of the serialized envelope, up to the status value. -/
def statusLead : List Char := "\x7b\n  \"status\": \"".data

/-- Strips an expected leading run of characters. -/
def dropLeading : List Char → List Char → Option (List Char)
  | [], rest => some rest
  | _ :: _, [] => none
  | p :: ps, c :: cs => if c = p then dropLeading ps cs else none

/-- Modelled from the spec: the decode direction of the round-trip property
("decoding the resulting response text yields status == success") — extract
the `status` field of a serialized `Response` by stripping the fixed opening
of the pretty-printed envelope and reading up to the closing quote. -/
def parseStatus (s : String) : Option String :=
  match dropLeading statusLead s.data with
  | none => none
  | some rest => some ⟨rest.takeWhile (fun c => c != '"')⟩

/-- A boundary heap: which (non-null) pointers are currently allocated. -/
def Heap := Nat → Bool

/-- The exported `free` (lines 265-273): a null pointer is left alone;
otherwise the buffer is reclaimed, and releasing a pointer that is not
allocated is undefined behaviour, modelled as `panicked`. -/
def free : Option Nat → Heap → PResult Heap
  | none, h => .ok h
  | some p, h =>
    if h p then .ok (fun q => if q = p then false else h q) else .panicked

/-- Iterated release: `n` successive calls to `free` on the same handle. -/
def freeN : Nat → Option Nat → Heap → PResult Heap
  | 0, _, h => .ok h
  | n + 1, p, h =>
    match free p h with
    | .panicked => .panicked
    | .ok h2 => freeN n p h2

/-! Concrete instantiations of the external collaborators, used to evaluate
the theorems on closed inputs. -/

/-- An address-parser double accepting exactly the strings containing an `@`,
the shape lettre's mailbox parser requires. -/
def atParser : String → Option String :=
  fun s => if s.data.any (fun c => c = '@') then some s else none

/-- A fully populated request. -/
def okMail : Mail :=
  ⟨"a@x.com", "b@y.com", none, none, none, none, none, "Hi", "Hello", none⟩

/-- A request whose `from` field is not a parseable mail address. -/
def badFromMail : Mail := { okMail with «from» := "not-an-address" }

/-- A decoder double that always succeeds with `okMail`. -/
def pmOk : String → Except String Mail := fun _ => .ok okMail

/-- A decoder double that always fails, as serde does on a non-JSON body. -/
def pmErr : String → Except String Mail := fun _ => .error "expected value"

/-- A decoder double yielding a request with an empty `to` field. -/
def pmEmptyTo : String → Except String Mail :=
  fun _ => .ok { okMail with «to» := "" }

/-- A relay-constructor double that always succeeds. -/
def rlOk : String → Option Unit := fun _ => some ()

/-- A transport double whose submission is acknowledged. -/
def trOk : ComposedMessage → Except String String := fun _ => .ok "250 Ok"

/-- A transport double whose submission fails. -/
def trErr : ComposedMessage → Except String String :=
  fun _ => .error "connection refused"

/-- A header map carrying `content-type: application/json`. -/
def jsonHeader : HeaderMap :=
  ⟨some ⟨some "application/json", "\"application/json\""⟩⟩

/-- A header map carrying `content-type: text/plain`. -/
def textHeader : HeaderMap :=
  ⟨some ⟨some "text/plain", "\"text/plain\""⟩⟩

/-- The dispatch on this call succeeded: the request passed the content-type
gate, decoded, validated, composed, the relay was built, and the transport
returned an acknowledgement.  This is the "SubmissionOutcome::Success" side
of the status mapping. -/
def TransportSuccess (parseMail : String → Except String Mail)
    (parseAddr : String → Option String)
    (relay : String → Option Unit) (server : String)
    (transport : ComposedMessage → Except String String)
    (h : HeaderMap) (b : Body) : Prop :=
  contentTypeError h = none ∧
  ∃ mail email ack, parseMail (bodyText b) = .ok mail ∧
    firstValidationError mail = none ∧
    composeEmail parseAddr mail = .ok email ∧
    relay server = some () ∧ transport email = .ok ack

/-- The response message is one of the specific messages assigned by the
content-type gate, the structural decode, the field validation, the success
path or the transport-failure path. -/
def SpecificMessage (msg : String) : Prop :=
  msg = "No content type" ∨
  (∃ s, msg = "Invalid content type: " ++ s) ∨
  (∃ s, msg = "Invalid JSON: " ++ s) ∨
  msg = "No from address" ∨ msg = "No to address" ∨
  msg = "No subject" ∨ msg = "No message" ∨
  (∃ s, msg = "Email sent successfully: " ++ s) ∨
  (∃ s, msg = "Failed to send email: " ++ s)

/-! Helper lemmas. -/

/-- The empty string tests empty. -/
theorem isEmpty_nil : ("" : String).isEmpty = true := rfl

/-- A string other than `""` tests nonempty. -/
theorem isEmpty_ne (s : String) (h : ¬ s = "") : s.isEmpty = false := by
  cases he : s.isEmpty
  · rfl
  · exact absurd ((String.isEmpty_iff s).mp he) h

/-- The validation loop as a chain of emptiness tests, first failure first. -/
theorem firstValidationError_eq (mail : Mail) :
    firstValidationError mail =
      if mail.«from» = "" then some "No from address"
      else if mail.«to» = "" then some "No to address"
      else if mail.subject = "" then some "No subject"
      else if mail.message = "" then some "No message"
      else none := by
  simp only [firstValidationError, validationChecks, List.find?]
  by_cases h1 : mail.«from» = "" <;> by_cases h2 : mail.«to» = "" <;>
    by_cases h3 : mail.subject = "" <;> by_cases h4 : mail.message = "" <;>
    simp [h1, h2, h3, h4, isEmpty_nil, isEmpty_ne]

/-- Stripping an expected leading run from exactly that run succeeds. -/
theorem dropLeading_self (p r : List Char) : dropLeading p (p ++ r) = some r := by
  induction p with
  | nil => rfl
  | cons c cs ih => simp [dropLeading, ih]

/-- A string extending `p` differs from any string that does not start
with `p`. -/
theorem ne_of_head_mismatch (p s t : String)
    (hp : t.data.take p.data.length ≠ p.data) : p ++ s ≠ t := by
  intro h
  apply hp
  rw [← h, String.data_append]
  exact List.take_left p.data s.data

/-- Evaluation of `parseStatus` on a string whose text starts with the fixed envelope
opening: the remainder is read up to the closing quote. -/
theorem parseStatus_eq_of_data (s : String) (rest : List Char)
    (h : s.data = statusLead ++ rest) :
    parseStatus s = some ⟨rest.takeWhile (fun c => c != '"')⟩ := by
  rw [parseStatus, h, dropLeading_self]

/-- Decoding the serialized envelope of any response whose status is
`success` recovers that status, whatever the message text. -/
theorem parseStatus_success (m : String) :
    parseStatus (to_c_response ⟨"success", m⟩) = some "success" := by
  have h1 : jsonEscape "success" = "success" := by decide
  have h2 : (to_c_response ⟨"success", m⟩).data =
      statusLead ++ ("success".data ++
        ("\",\n  \"message\": \"".data ++
          ((jsonEscape m).data ++ "\"\n\x7d".data))) := by
    simp [to_c_response, h1, statusLead, String.data_append, List.append_assoc]
  rw [parseStatus_eq_of_data _ _ h2]
  have hpos : ∀ a ∈ "success".data, (fun c => c != '"') a = true := by decide
  rw [List.takeWhile_append_of_pos hpos]
  have hq : ("\",\n  \"message\": \"".data) =
      '"' :: (",\n  \"message\": \"".data) := rfl
  rw [hq, List.cons_append]
  simp [List.takeWhile_cons]

/-! The claims. -/

/-- C7: for every call in which the headers pointer or the body pointer is
null, `sendmail` returns a null result immediately, without reading either
argument and without any submission attempt. -/
theorem sendmail_null_inputs (pm : String → Except String Mail)
    (pa : String → Option String) (rl : String → Option Unit) (srv : String)
    (tr : ComposedMessage → Except String String)
    (hm : Option HeaderMap) (b : Option Body) :
    sendmail pm pa rl srv tr none b = (.nullPtr, 0) ∧
    sendmail pm pa rl srv tr hm none = (.nullPtr, 0) := by
  refine ⟨rfl, ?_⟩
  cases hm <;> rfl

/-- C8: releasing a null handle, any number of times, is a no-op: the heap is
returned unchanged and no undefined behaviour (crash) occurs. -/
theorem free_null_noop (n : Nat) (h : Heap) :
    free none h = .ok h ∧ freeN n none h = .ok h := by
  refine ⟨rfl, ?_⟩
  induction n generalizing h with
  | zero => rfl
  | succ k ih => simpa [freeN, free] using ih h

/-- C9: the composed transport message depends only on the `from`, `to`,
`subject` and `message` fields: two requests agreeing on those four compose
to identical messages, whatever their `cc`, `bcc`, `reply_to`,
`sender_name`, `sender_email` or `attachments`. -/
theorem composeEmail_wired_fields_only
    (pa : String → Option String) (m1 m2 : Mail)
    (hf : m1.«from» = m2.«from») (ht : m1.«to» = m2.«to»)
    (hs : m1.subject = m2.subject) (hm : m1.message = m2.message) :
    composeEmail pa m1 = composeEmail pa m2 := by
  simp only [composeEmail, hf, ht, hs, hm]

/-- Witness for C9: hold the four wired fields of `okMail` fixed and change
every optional field; the composed message is unchanged. -/
theorem composeEmail_wired_fields_only_witness :
    composeEmail atParser okMail =
      composeEmail atParser
        { okMail with
          cc := some "c@z.org",
          bcc := some "d@z.org",
          reply_to := some "r@z.org",
          sender_name := some "N",
          sender_email := some "s@z.org",
          attachments := some ["f.txt"] } :=
  composeEmail_wired_fields_only atParser _ _ rfl rfl rfl rfl

/-- C1 (refuted by the code): on a request whose `from` field is a non-empty
string that no mailbox parser accepts, `send_via_gmail` panics in
`mail.from.parse().unwrap()` — the process aborts with no submission attempt
and no `InvalidAddress`-style error response — and the panic propagates out
of `sendmail`, which never reaches its response encoding. -/
theorem send_abort_on_unparseable_from :
    badFromMail.«from» ≠ "" ∧
    send_via_gmail atParser rlOk "smtp.gmail.com" trOk badFromMail =
      (.panicked, 0) ∧
    sendmail (fun _ => .ok badFromMail) atParser rlOk "smtp.gmail.com" trOk
      (some jsonHeader) (some (some "ignored")) = (.panicked, 0) := by
  refine ⟨by decide, rfl, rfl⟩

/-- C6: a body buffer whose bytes are not valid UTF-8 is not a hard failure
at the byte-to-text step: the sentinel `Invalid UTF-8 sequence` is
substituted for the body text and processing continues into the structural
decode exactly as for a valid body holding the sentinel. -/
theorem sendmail_invalid_utf8_sentinel
    (pm : String → Except String Mail) (pa : String → Option String)
    (rl : String → Option Unit) (srv : String)
    (tr : ComposedMessage → Except String String) (h : HeaderMap)
    (hct : contentTypeError h = none) :
    bodyText none = "Invalid UTF-8 sequence" ∧
    sendmail pm pa rl srv tr (some h) (some none) =
      sendmail pm pa rl srv tr (some h)
        (some (some "Invalid UTF-8 sequence")) ∧
    sendmail pm pa rl srv tr (some h) (some none) =
      (match pm "Invalid UTF-8 sequence" with
       | .error e => (.buffer ⟨"error", "Invalid JSON: " ++ e⟩, 0)
       | .ok mail => afterDecode pa rl srv tr mail) := by
  refine ⟨rfl, ?_, ?_⟩ <;>
    simp [sendmail, hct, afterContentType, bodyText]

/-- Witness for C6: a JSON content type and an invalid-UTF-8 body reach the
structural decode with the sentinel text and fail there, not earlier. -/
theorem sendmail_invalid_utf8_sentinel_witness :
    bodyText none = "Invalid UTF-8 sequence" ∧
    sendmail pmErr atParser rlOk "smtp.gmail.com" trOk (some jsonHeader)
      (some none) =
      (.buffer ⟨"error", "Invalid JSON: " ++ "expected value"⟩, 0) := by
  have h := sendmail_invalid_utf8_sentinel pmErr atParser rlOk
    "smtp.gmail.com" trOk jsonHeader (by decide)
  exact ⟨h.1, h.2.2.trans (by rfl)⟩

/-- C2: when the decoded request has at least one empty required field, the
response is an `error` whose message names exactly the first empty field in
the order from, to, subject, message: `No from address`, `No to address`,
`No subject`, `No message`. -/
theorem sendmail_first_empty_field
    (pm : String → Except String Mail) (pa : String → Option String)
    (rl : String → Option Unit) (srv : String)
    (tr : ComposedMessage → Except String String) (h : HeaderMap) (b : Body)
    (mail : Mail) (hct : contentTypeError h = none)
    (hp : pm (bodyText b) = .ok mail)
    (he : mail.«from» = "" ∨ mail.«to» = "" ∨ mail.subject = "" ∨
      mail.message = "") :
    sendmail pm pa rl srv tr (some h) (some b) =
      (.buffer ⟨"error",
        if mail.«from» = "" then "No from address"
        else if mail.«to» = "" then "No to address"
        else if mail.subject = "" then "No subject"
        else "No message"⟩, 0) := by
  simp only [sendmail, hct, afterContentType, hp, afterDecode,
    firstValidationError_eq]
  rcases he with he | he | he | he <;> simp [he] <;> split_ifs <;> simp_all

/-- Witness for C2: a decoded request with an empty `to` field (and nonempty
`from`) yields exactly the `No to address` error. -/
theorem sendmail_first_empty_field_witness :
    sendmail pmEmptyTo atParser rlOk "smtp.gmail.com" trOk
      (some jsonHeader) (some (some "x")) =
      (.buffer ⟨"error", "No to address"⟩, 0) := by
  have h := sendmail_first_empty_field pmEmptyTo atParser rlOk
    "smtp.gmail.com" trOk jsonHeader (some "x")
    { okMail with «to» := "" } (by decide) rfl (Or.inr (Or.inl rfl))
  exact h.trans (by decide)

/-- C5: a request that reaches the transport dispatcher makes exactly one
submission attempt, and any transport error is surfaced to the caller as an
`error` response — never a panic, never a retry. -/
theorem transport_single_attempt
    (pa : String → Option String) (rl : String → Option Unit) (srv : String)
    (tr : ComposedMessage → Except String String) (mail : Mail)
    (email : ComposedMessage)
    (hc : composeEmail pa mail = .ok email) (hr : rl srv = some ()) :
    (send_via_gmail pa rl srv tr mail).2 = 1 ∧
    ∀ err, tr email = .error err →
      ∀ (pm : String → Except String Mail) (h : HeaderMap) (b : Body),
        contentTypeError h = none → pm (bodyText b) = .ok mail →
        firstValidationError mail = none →
        sendmail pm pa rl srv tr (some h) (some b) =
          (.buffer ⟨"error", "Failed to send email: " ++ err⟩, 1) := by
  constructor
  · simp [send_via_gmail, hc, hr]
  · intro err herr pm h b hct hp hval
    simp [sendmail, hct, afterContentType, hp, afterDecode, hval,
      send_via_gmail, hc, hr, herr]

/-- Witness for C5: with a reachable relay and a failing transport, exactly
one attempt is made and the failure is encoded as an `error` response. -/
theorem transport_single_attempt_witness :
    (send_via_gmail atParser rlOk "smtp.gmail.com" trErr okMail).2 = 1 ∧
    sendmail pmOk atParser rlOk "smtp.gmail.com" trErr (some jsonHeader)
      (some (some "x")) =
      (.buffer ⟨"error", "Failed to send email: " ++ "connection refused"⟩,
        1) := by
  have h := transport_single_attempt atParser rlOk "smtp.gmail.com" trErr
    okMail ⟨"a@x.com", "b@y.com", "Hi", "Hello"⟩ rfl rfl
  exact ⟨h.1, h.2 "connection refused" rfl pmOk jsonHeader (some "x")
    (by decide) rfl (by decide)⟩

/-- C3: a non-null call whose content-type header is absent, or whose value
is not exactly `application/json`, yields the corresponding error response
(naming the offending value, or its absence), and the JSON decode is never
attempted: the result is identical for every decoder, transport, relay and
body. -/
theorem sendmail_content_type_gate
    (pm pm' : String → Except String Mail) (pa pa' : String → Option String)
    (rl rl' : String → Option Unit) (srv srv' : String)
    (tr tr' : ComposedMessage → Except String String)
    (h : HeaderMap) (b b' : Body)
    (hbad : h.contentType = none ∨
      ∃ v, h.contentType = some v ∧
        v.toStrResult.getD "" ≠ "application/json") :
    (h.contentType = none →
      sendmail pm pa rl srv tr (some h) (some b) =
        (.buffer ⟨"error", "No content type"⟩, 0)) ∧
    (∀ v, h.contentType = some v →
      sendmail pm pa rl srv tr (some h) (some b) =
        (.buffer ⟨"error", "Invalid content type: " ++ v.debugRepr⟩, 0)) ∧
    sendmail pm pa rl srv tr (some h) (some b) =
      sendmail pm' pa' rl' srv' tr' (some h) (some b') := by
  rcases hbad with hnone | ⟨v, hv, hne⟩
  · refine ⟨fun _ => ?_, fun w hw => ?_, ?_⟩ <;>
      simp_all [sendmail, contentTypeError]
  · refine ⟨fun hn => ?_, fun w hw => ?_, ?_⟩
    · rw [hn] at hv
      cases hv
    · have hwv : w = v := by
        rw [hw] at hv
        exact (Option.some.injEq _ _ ▸ hv)
      subst hwv
      simp [sendmail, contentTypeError, hw, hne]
    · simp [sendmail, contentTypeError, hv, hne]

/-- Witness for C3: a `text/plain` content type is rejected with a message
naming it, and the result ignores decoder, transport, server and body. -/
theorem sendmail_content_type_gate_witness :
    sendmail pmOk atParser rlOk "smtp.gmail.com" trOk (some textHeader)
      (some (some "AAA")) =
      (.buffer ⟨"error", "Invalid content type: " ++ "\"text/plain\""⟩,
        0) ∧
    sendmail pmOk atParser rlOk "smtp.gmail.com" trOk (some textHeader)
      (some (some "AAA")) =
    sendmail pmErr atParser rlOk "other" trErr (some textHeader)
      (some none) := by
  have h := sendmail_content_type_gate pmOk pmErr atParser atParser rlOk rlOk
    "smtp.gmail.com" "other" trOk trErr textHeader (some "AAA") none
    (Or.inr ⟨⟨some "text/plain", "\"text/plain\""⟩, rfl, by decide⟩)
  exact ⟨h.2.1 ⟨some "text/plain", "\"text/plain\""⟩ rfl, h.2.2⟩

/-- Inversion of the dispatcher: the three ways `send_via_gmail` can end. -/
theorem send_via_gmail_inversion (pa : String → Option String)
    (rl : String → Option Unit) (srv : String)
    (tr : ComposedMessage → Except String String) (mail : Mail)
    (res : PResult (Except String String) × Nat)
    (hs : send_via_gmail pa rl srv tr mail = res) :
    (composeEmail pa mail = .panicked ∧ res = (.panicked, 0)) ∨
    (∃ email, composeEmail pa mail = .ok email ∧ rl srv = none ∧
      res = (.panicked, 0)) ∨
    (∃ email, composeEmail pa mail = .ok email ∧ rl srv = some () ∧
      res = (.ok (tr email), 1)) := by
  simp only [send_via_gmail] at hs
  cases hcomp : composeEmail pa mail with
  | panicked =>
    rw [hcomp] at hs
    exact .inl ⟨rfl, hs.symm⟩
  | ok email =>
    rw [hcomp] at hs
    cases hrl : rl srv with
    | none =>
      rw [hrl] at hs
      exact .inr (.inl ⟨email, rfl, rfl, hs.symm⟩)
    | some u =>
      cases u
      rw [hrl] at hs
      exact .inr (.inr ⟨email, rfl, rfl, hs.symm⟩)

/-- Inversion of `sendmail` on non-null inputs returning a buffer: the five
exit paths and the exact response and attempt count each produces. -/
theorem sendmail_buffer_inversion (pm : String → Except String Mail)
    (pa : String → Option String) (rl : String → Option Unit) (srv : String)
    (tr : ComposedMessage → Except String String) (h : HeaderMap) (b : Body)
    (r : Response) (n : Nat)
    (hres : sendmail pm pa rl srv tr (some h) (some b) = (.buffer r, n)) :
    (∃ msg, contentTypeError h = some msg ∧ r = ⟨"error", msg⟩ ∧ n = 0) ∨
    (contentTypeError h = none ∧ ∃ e, pm (bodyText b) = .error e ∧
      r = ⟨"error", "Invalid JSON: " ++ e⟩ ∧ n = 0) ∨
    (contentTypeError h = none ∧ ∃ mail msg, pm (bodyText b) = .ok mail ∧
      firstValidationError mail = some msg ∧ r = ⟨"error", msg⟩ ∧ n = 0) ∨
    (contentTypeError h = none ∧ ∃ mail email ack,
      pm (bodyText b) = .ok mail ∧ firstValidationError mail = none ∧
      composeEmail pa mail = .ok email ∧ rl srv = some () ∧
      tr email = .ok ack ∧
      r = ⟨"success", "Email sent successfully: " ++ ack⟩ ∧ n = 1) ∨
    (contentTypeError h = none ∧ ∃ mail email err,
      pm (bodyText b) = .ok mail ∧ firstValidationError mail = none ∧
      composeEmail pa mail = .ok email ∧ rl srv = some () ∧
      tr email = .error err ∧
      r = ⟨"error", "Failed to send email: " ++ err⟩ ∧ n = 1) := by
  simp only [sendmail] at hres
  cases hct : contentTypeError h with
  | some msg =>
    rw [hct] at hres
    simp only [Prod.mk.injEq, CallResult.buffer.injEq] at hres
    exact .inl ⟨msg, rfl, hres.1.symm, hres.2.symm⟩
  | none =>
    rw [hct] at hres
    simp only [afterContentType] at hres
    cases hpm : pm (bodyText b) with
    | error e =>
      rw [hpm] at hres
      simp only [Prod.mk.injEq, CallResult.buffer.injEq] at hres
      exact .inr (.inl ⟨rfl, e, rfl, hres.1.symm, hres.2.symm⟩)
    | ok mail =>
      rw [hpm] at hres
      simp only [afterDecode] at hres
      cases hval : firstValidationError mail with
      | some msg =>
        rw [hval] at hres
        simp only [Prod.mk.injEq, CallResult.buffer.injEq] at hres
        exact .inr (.inr (.inl
          ⟨rfl, mail, msg, rfl, hval, hres.1.symm, hres.2.symm⟩))
      | none =>
        rw [hval] at hres
        rcases send_via_gmail_inversion pa rl srv tr mail _ rfl with
          ⟨hcomp, hsg⟩ | ⟨email, hcomp, hrl, hsg⟩ | ⟨email, hcomp, hrl, hsg⟩
        · rw [hsg] at hres
          simp at hres
        · rw [hsg] at hres
          simp at hres
        · rw [hsg] at hres
          cases htr : tr email with
          | ok ack =>
            rw [htr] at hres
            simp only [Prod.mk.injEq, CallResult.buffer.injEq] at hres
            exact .inr (.inr (.inr (.inl ⟨rfl, mail, email, ack, rfl, hval,
              hcomp, hrl, htr, hres.1.symm, hres.2.symm⟩)))
          | error err =>
            rw [htr] at hres
            simp only [Prod.mk.injEq, CallResult.buffer.injEq] at hres
            exact .inr (.inr (.inr (.inr ⟨rfl, mail, email, err, rfl, hval,
              hcomp, hrl, htr, hres.1.symm, hres.2.symm⟩)))

/-- C4: a returned buffer has status `success` exactly when the transport
dispatch returned a success outcome; every other path yields `error`; and
serializing the envelope of a success outcome and decoding the text back
yields status `success`. -/
theorem sendmail_status_success_iff (pm : String → Except String Mail)
    (pa : String → Option String) (rl : String → Option Unit) (srv : String)
    (tr : ComposedMessage → Except String String) (h : HeaderMap) (b : Body)
    (r : Response) (n : Nat)
    (hres : sendmail pm pa rl srv tr (some h) (some b) = (.buffer r, n)) :
    (r.status = "success" ↔ TransportSuccess pm pa rl srv tr h b) ∧
    (r.status = "success" ∨ r.status = "error") ∧
    ∀ ack, parseStatus (to_c_response
      ⟨"success", "Email sent successfully: " ++ ack⟩) = some "success" := by
  have key : (r.status = "success" ∧ TransportSuccess pm pa rl srv tr h b) ∨
      (r.status = "error" ∧ ¬ TransportSuccess pm pa rl srv tr h b) := by
    rcases sendmail_buffer_inversion pm pa rl srv tr h b r n hres with
      ⟨msg, hct, hr, -⟩ | ⟨hct, e, hpm, hr, -⟩ |
      ⟨hct, mail, msg, hpm, hval, hr, -⟩ |
      ⟨hct, mail, email, ack, hpm, hval, hcomp, hrl, htr, hr, -⟩ |
      ⟨hct, mail, email, err, hpm, hval, hcomp, hrl, htr, hr, -⟩
    · refine .inr ⟨by rw [hr], ?_⟩
      rintro ⟨hctn, -⟩
      rw [hct] at hctn
      cases hctn
    · refine .inr ⟨by rw [hr], ?_⟩
      rintro ⟨-, mail, email, ack, hpm', -⟩
      rw [hpm] at hpm'
      cases hpm'
    · refine .inr ⟨by rw [hr], ?_⟩
      rintro ⟨-, mail', email, ack, hpm', hval', -⟩
      rw [hpm] at hpm'
      cases hpm'
      rw [hval] at hval'
      cases hval'
    · exact .inl ⟨by rw [hr],
        hct, mail, email, ack, hpm, hval, hcomp, hrl, htr⟩
    · refine .inr ⟨by rw [hr], ?_⟩
      rintro ⟨-, mail', email', ack, hpm', hval', hcomp', hrl', htr'⟩
      rw [hpm] at hpm'
      cases hpm'
      rw [hcomp] at hcomp'
      cases hcomp'
      rw [htr] at htr'
      cases htr'
  rcases key with ⟨h1, h2⟩ | ⟨h1, h2⟩
  · exact ⟨⟨fun _ => h2, fun _ => h1⟩, .inl h1,
      fun ack => parseStatus_success _⟩
  · refine ⟨⟨fun hs => ?_, fun ht => absurd ht h2⟩, .inr h1,
      fun ack => parseStatus_success _⟩
    exact absurd (h1.symm.trans hs) (by decide)

/-- Witness for C4: a fully successful concrete run has status `success`,
the transport-success condition holds, and the serialized envelope decodes
back to status `success`. -/
theorem sendmail_status_success_iff_witness :
    ((⟨"success", "Email sent successfully: " ++ "250 Ok"⟩ : Response).status
        = "success" ↔
      TransportSuccess pmOk atParser rlOk "smtp.gmail.com" trOk jsonHeader
        (some "x")) ∧
    ((⟨"success", "Email sent successfully: " ++ "250 Ok"⟩ : Response).status
        = "success" ∨
     (⟨"success", "Email sent successfully: " ++ "250 Ok"⟩ : Response).status
        = "error") ∧
    parseStatus (to_c_response
      ⟨"success", "Email sent successfully: " ++ "250 Ok"⟩) =
      some "success" := by
  have h := sendmail_status_success_iff pmOk atParser rlOk "smtp.gmail.com"
    trOk jsonHeader (some "x")
    ⟨"success", "Email sent successfully: " ++ "250 Ok"⟩ 1 rfl
  exact ⟨h.1, h.2.1, h.2.2 "250 Ok"⟩

/-- A message produced by the content-type gate names the offending value or
its absence. -/
theorem contentType_msg_cases (h : HeaderMap) (msg : String)
    (hct : contentTypeError h = some msg) :
    msg = "No content type" ∨
    ∃ s, msg = "Invalid content type: " ++ s := by
  cases hcv : h.contentType with
  | none =>
    simp only [contentTypeError, hcv, Option.some.injEq] at hct
    exact .inl hct.symm
  | some v =>
    simp only [contentTypeError, hcv] at hct
    split_ifs at hct
    simp only [Option.some.injEq] at hct
    exact .inr ⟨v.debugRepr, hct.symm⟩

/-- A message produced by the validation loop is one of its four fixed
messages. -/
theorem validation_msg_cases (mail : Mail) (msg : String)
    (hval : firstValidationError mail = some msg) :
    msg = "No from address" ∨ msg = "No to address" ∨
    msg = "No subject" ∨ msg = "No message" := by
  rw [firstValidationError_eq] at hval
  split_ifs at hval <;> simp_all

/-- A specific response message is never the initialization placeholder. -/
theorem specific_ne_internal (msg : String) (hs : SpecificMessage msg) :
    msg ≠ "Internal plugin error" := by
  rcases hs with h | ⟨s, h⟩ | ⟨s, h⟩ | h | h | h | h | ⟨s, h⟩ | ⟨s, h⟩ <;>
    subst h
  · decide
  · exact ne_of_head_mismatch _ _ _ (by decide)
  · exact ne_of_head_mismatch _ _ _ (by decide)
  · decide
  · decide
  · decide
  · decide
  · exact ne_of_head_mismatch _ _ _ (by decide)
  · exact ne_of_head_mismatch _ _ _ (by decide)

/-- C10: the placeholder `Internal plugin error` that initializes the
response is never observable: every buffer `sendmail` returns carries one of
the specific content-type, decode, validation, success or transport-failure
messages, and never the placeholder. -/
theorem sendmail_message_specific (pm : String → Except String Mail)
    (pa : String → Option String) (rl : String → Option Unit) (srv : String)
    (tr : ComposedMessage → Except String String)
    (hm : Option HeaderMap) (b : Option Body) (r : Response) (n : Nat)
    (hres : sendmail pm pa rl srv tr hm b = (.buffer r, n)) :
    r.message ≠ "Internal plugin error" ∧ SpecificMessage r.message := by
  have hspec : SpecificMessage r.message := by
    match hm, b with
    | none, b => simp [sendmail] at hres
    | some h, none => simp [sendmail] at hres
    | some h, some bb =>
      rcases sendmail_buffer_inversion pm pa rl srv tr h bb r n hres with
        ⟨msg, hct, hr, -⟩ | ⟨hct, e, hpm, hr, -⟩ |
        ⟨hct, mail, msg, hpm, hval, hr, -⟩ |
        ⟨hct, mail, email, ack, hpm, hval, hcomp, hrl, htr, hr, -⟩ |
        ⟨hct, mail, email, err, hpm, hval, hcomp, hrl, htr, hr, -⟩
      · subst hr
        rcases contentType_msg_cases h msg hct with hmsg | ⟨s, hmsg⟩
        · exact .inl hmsg
        · exact .inr (.inl ⟨s, hmsg⟩)
      · subst hr
        exact .inr (.inr (.inl ⟨e, rfl⟩))
      · subst hr
        rcases validation_msg_cases mail msg hval with
          hmsg | hmsg | hmsg | hmsg
        · exact .inr (.inr (.inr (.inl hmsg)))
        · exact .inr (.inr (.inr (.inr (.inl hmsg))))
        · exact .inr (.inr (.inr (.inr (.inr (.inl hmsg)))))
        · exact .inr (.inr (.inr (.inr (.inr (.inr (.inl hmsg))))))
      · subst hr
        exact .inr (.inr (.inr (.inr (.inr (.inr (.inr
          (.inl ⟨ack, rfl⟩)))))))
      · subst hr
        exact .inr (.inr (.inr (.inr (.inr (.inr (.inr
          (.inr ⟨err, rfl⟩)))))))
  exact ⟨specific_ne_internal _ hspec, hspec⟩

/-- Witness for C10: the buffer returned for a `text/plain` content type
carries the specific content-type message, not the placeholder. -/
theorem sendmail_message_specific_witness :
    ("Invalid content type: " ++ "\"text/plain\"" : String) ≠
      "Internal plugin error" ∧
    SpecificMessage ("Invalid content type: " ++ "\"text/plain\"") := by
  have h := sendmail_message_specific pmOk atParser rlOk "smtp.gmail.com"
    trOk (some textHeader) (some (some "x"))
    ⟨"error", "Invalid content type: " ++ "\"text/plain\""⟩ 0 rfl
  exact h

end ArpGmail
